import Mathlib

/-!
# dmsg: session client, proxy front-ends and the vendored unquote wrapper

A shallow embedding of

* `dmsgpty/cli.go` (`CLI.prepareConn`, `CLI.prepareStdin`, `CLI.WhitelistClient`,
  `CLI.StartLocalPty`, `CLI.StartRemotePty`),
* `cmd/dmsgsocks/dmsgsocks.go` (`rootCmd.Run`),
* `cmd/dmsgsocks-client/dmsgsocksc.go` (`rootCmd.RunE`, `startDmsg`),
* `vendor/github.com/bytedance/sonic/unquote/unquote.go`
  (`String`, `IntoBytes`, `intoBytesUnsafe`).

Effects are made explicit: every call that leaves the modelled function is
appended to a trace together with the result the outside world gave, and the
outside world is a record of oracles.
-/

namespace Dmsgpty

/-- Go `error`: `none` is `nil`, `some msg` is an error whose `Error()` text is `msg`. -/
abbrev GoError := Option String

/-- The `CLI` struct of `cli.go` lines 18-22; `Log` is `none` for a nil logger and
otherwise holds the logger's name. -/
structure CLI where
  Log : Option String
  Net : String
  Addr : String
deriving DecidableEq, Repr

/-- The package constants `DefaultCLINet` and `DefaultCLIAddr`, which `cli.go` uses but
does not declare; they are taken as parameters. -/
structure Consts where
  DefaultCLINet : String
  DefaultCLIAddr : String
deriving DecidableEq, Repr

/-- A control connection as returned by `net.Dial(network, address)`. -/
structure Conn where
  net : String
  addr : String
deriving DecidableEq, Repr

/-- The session client handed to `servePty`: built over a connection, and for the
proxy variant also over the remote public key and port. -/
structure PtyClient where
  conn : Conn
  remote : Option (List Nat × Nat)
deriving DecidableEq, Repr

/-- The whitelist client built over a connection. -/
structure WhitelistClient where
  conn : Conn
deriving DecidableEq, Repr

/-- Calls that leave `cli.go`, each recorded with the result it received. -/
inductive Event where
  /-- Line 102-104: the `Requesting...` log line with its `address` field. -/
  | logRequesting (address : String)
  /-- Line 106: `net.Dial(cli.Net, cli.Addr)`. -/
  | dial (net addr : String) (err : GoError)
  /-- Line 39: `NewWhitelistClient(conn)`. -/
  | newWhitelistClient (conn : Conn) (err : GoError)
  /-- Line 49: `NewPtyClient(conn)`. -/
  | newPtyClient (conn : Conn) (err : GoError)
  /-- Line 72: `NewProxyClient(conn, rPK, rPort)`. -/
  | newProxyClient (conn : Conn) (rPK : List Nat) (rPort : Nat) (err : GoError)
  /-- Line 116: `terminal.MakeRaw(stdin)`. -/
  | makeRaw (err : GoError)
  /-- Line 117-119: the warning logged when raw mode could not be set. -/
  | warnRawFailed (err : String)
  /-- Line 62 / 85: `cli.servePty(ctx, ptyC, cmd, args)`. -/
  | servePty (ptyC : PtyClient) (cmd : String) (args : List String) (ret : GoError)
  /-- Line 124: `terminal.Restore(stdin, oldState)`. -/
  | termRestore (err : GoError)
  /-- Line 125-127: the error logged when the terminal could not be restored. -/
  | errorRestoreFailed (err : String)
deriving DecidableEq, Repr

/-- The outside world of `cli.go`: the platform name and the result of each external
call. `servePty` and the three client constructors live in other files of the package
and are used here only through their results. -/
structure World where
  GOOS : String
  dial : String → String → GoError
  newWhitelistClient : Conn → Option WhitelistClient × GoError
  newPtyClient : Conn → GoError
  newProxyClient : Conn → List Nat → Nat → GoError
  makeRaw : GoError
  servePty : PtyClient → String → List String → GoError
  termRestore : GoError

/-- What a method leaves behind: the receiver after the call (methods have pointer
receivers), the trace of external calls, and the returned value. -/
structure Outcome (α : Type) where
  cli : CLI
  trace : List Event
  ret : α

/-- `CLI.prepareConn`, lines 89-111. Returns the connection, or the wrapped dial error. -/
def prepareConn (k : Consts) (w : World) (cli : CLI) (tr : List Event) :
    Outcome (Except String Conn) :=
  -- Set defaults.
  let cli := if cli.Log = none then { cli with Log := some "dmsgpty-cli" } else cli
  let cli := if cli.Net = "" then { cli with Net := k.DefaultCLINet } else cli
  let cli := if cli.Addr = "" then { cli with Addr := k.DefaultCLIAddr } else cli
  let tr := tr ++ [Event.logRequesting (cli.Net ++ "://" ++ cli.Addr)]
  let err := w.dial cli.Net cli.Addr
  let tr := tr ++ [Event.dial cli.Net cli.Addr err]
  match err with
  | some e => ⟨cli, tr, .error ("failed to connect to dmsgpty-host: " ++ e)⟩
  | none => ⟨cli, tr, .ok ⟨cli.Net, cli.Addr⟩⟩

/-- The closure built at `cli.go` lines 122-129: one `terminal.Restore`, whose failure is
only logged. -/
def restoreFn (w : World) (tr : List Event) : List Event :=
  let err := w.termRestore
  let tr := tr ++ [Event.termRestore err]
  match err with
  | some e => tr ++ [Event.errorRestoreFailed e]
  | none => tr

/-- `CLI.prepareStdin`, lines 114-131: on success the restore closure, on failure the
error of `terminal.MakeRaw` (after a warning). -/
def prepareStdin (w : World) (tr : List Event) :
    List Event × Except String (List Event → List Event) :=
  let err := w.makeRaw
  let tr := tr ++ [Event.makeRaw err]
  match err with
  | some e => (tr ++ [Event.warnRawFailed e], .error e)
  | none => (tr, .ok (restoreFn w))

/-- `CLI.WhitelistClient`, lines 34-40. -/
def CLI.WhitelistClient (k : Consts) (w : World) (cli : CLI) :
    Outcome (Option WhitelistClient × GoError) :=
  let r := prepareConn k w cli []
  match r.ret with
  | .error e => ⟨r.cli, r.trace, (none, some e)⟩
  | .ok conn =>
    let res := w.newWhitelistClient conn
    ⟨r.cli, r.trace ++ [Event.newWhitelistClient conn res.2], res⟩

/-- `CLI.StartLocalPty`, lines 43-63. The context argument only reaches `servePty`, whose
result (success, error or cancellation) is the oracle `World.servePty`. -/
def CLI.StartLocalPty (k : Consts) (w : World) (cli : CLI) (cmd : String)
    (args : List String) : Outcome GoError :=
  let r := prepareConn k w cli []
  match r.ret with
  | .error e => ⟨r.cli, r.trace, some e⟩
  | .ok conn =>
    let err := w.newPtyClient conn
    let tr := r.trace ++ [Event.newPtyClient conn err]
    match err with
    | some e => ⟨r.cli, tr, some e⟩
    | none =>
      let ptyC : PtyClient := ⟨conn, none⟩
      if w.GOOS ≠ "Windows" then
        match prepareStdin w tr with
        | (tr, .error e) => ⟨r.cli, tr, some e⟩
        | (tr, .ok restore) =>
          -- defer restore()
          let ret := w.servePty ptyC cmd args
          let tr := tr ++ [Event.servePty ptyC cmd args ret]
          -- the deferred call runs as the function returns
          ⟨r.cli, restore tr, ret⟩
      else
        let ret := w.servePty ptyC cmd args
        ⟨r.cli, tr ++ [Event.servePty ptyC cmd args ret], ret⟩

/-- `CLI.StartRemotePty`, lines 66-86. -/
def CLI.StartRemotePty (k : Consts) (w : World) (cli : CLI) (rPK : List Nat) (rPort : Nat)
    (cmd : String) (args : List String) : Outcome GoError :=
  let r := prepareConn k w cli []
  match r.ret with
  | .error e => ⟨r.cli, r.trace, some e⟩
  | .ok conn =>
    let err := w.newProxyClient conn rPK rPort
    let tr := r.trace ++ [Event.newProxyClient conn rPK rPort err]
    match err with
    | some e => ⟨r.cli, tr, some e⟩
    | none =>
      let ptyC : PtyClient := ⟨conn, some (rPK, rPort)⟩
      if w.GOOS ≠ "Windows" then
        match prepareStdin w tr with
        | (tr, .error e) => ⟨r.cli, tr, some e⟩
        | (tr, .ok restore) =>
          -- defer restore()
          let ret := w.servePty ptyC cmd args
          let tr := tr ++ [Event.servePty ptyC cmd args ret]
          -- the deferred call runs as the function returns
          ⟨r.cli, restore tr, ret⟩
      else
        let ret := w.servePty ptyC cmd args
        ⟨r.cli, tr ++ [Event.servePty ptyC cmd args ret], ret⟩

/-- Whether the event is a call of `terminal.Restore`. -/
def Event.isRestore : Event → Bool
  | .termRestore _ => true
  | _ => false

/-- Whether the event is a call of `servePty`. -/
def Event.isServe : Event → Bool
  | .servePty _ _ _ _ => true
  | _ => false

/-- Whether the event is a call of `net.Dial`. -/
def Event.isDial : Event → Bool
  | .dial _ _ _ => true
  | _ => false

/-- The position of an event among the five steps of a pty operation (dial, negotiate,
enter raw mode, serve, restore); log lines are not steps. -/
def Event.step : Event → Option Nat
  | .dial _ _ _ => some 0
  | .newWhitelistClient _ _ => some 1
  | .newPtyClient _ _ => some 1
  | .newProxyClient _ _ _ _ => some 1
  | .makeRaw _ => some 2
  | .servePty _ _ _ _ => some 3
  | .termRestore _ => some 4
  | .logRequesting _ => none
  | .warnRawFailed _ => none
  | .errorRestoreFailed _ => none

/-- The network a configuration dials: its own, or the default when it is empty. -/
def effNet (k : Consts) (cli : CLI) : String :=
  if cli.Net = "" then k.DefaultCLINet else cli.Net

/-- The address a configuration dials: its own, or the default when it is empty. -/
def effAddr (k : Consts) (cli : CLI) : String :=
  if cli.Addr = "" then k.DefaultCLIAddr else cli.Addr

/-- The logger after defaulting. -/
def effLog (cli : CLI) : Option String :=
  if cli.Log = none then some "dmsgpty-cli" else cli.Log

/-- The negotiation event of a session client: `NewPtyClient` for the local variant,
`NewProxyClient` for the proxied one. -/
def negotiateEvent (ptyC : PtyClient) (err : GoError) : Event :=
  match ptyC.remote with
  | none => Event.newPtyClient ptyC.conn err
  | some (pk, port) => Event.newProxyClient ptyC.conn pk port err

/-- Closed form of a pty operation, by the results `d` of the dial and `c` of the
negotiation: used to reason about `CLI.StartLocalPty` and `CLI.StartRemotePty` at once
(see `StartLocalPty_eq`, `StartRemotePty_eq`). -/
def ptyRun (w : World) (cli : CLI) (ptyC : PtyClient) (d c : GoError) (cmd : String)
    (args : List String) : Outcome GoError :=
  let base := [Event.logRequesting (ptyC.conn.net ++ "://" ++ ptyC.conn.addr),
    Event.dial ptyC.conn.net ptyC.conn.addr d]
  let serve := Event.servePty ptyC cmd args (w.servePty ptyC cmd args)
  match d with
  | some e => ⟨cli, base, some ("failed to connect to dmsgpty-host: " ++ e)⟩
  | none =>
    match c with
    | some e => ⟨cli, base ++ [negotiateEvent ptyC (some e)], some e⟩
    | none =>
      if w.GOOS = "Windows" then
        ⟨cli, base ++ [negotiateEvent ptyC none, serve], w.servePty ptyC cmd args⟩
      else
        match w.makeRaw with
        | some e =>
          ⟨cli, base ++ [negotiateEvent ptyC none, Event.makeRaw (some e),
            Event.warnRawFailed e], some e⟩
        | none =>
          match w.termRestore with
          | some e =>
            ⟨cli, base ++ [negotiateEvent ptyC none, Event.makeRaw none, serve,
              Event.termRestore (some e), Event.errorRestoreFailed e], w.servePty ptyC cmd args⟩
          | none =>
            ⟨cli, base ++ [negotiateEvent ptyC none, Event.makeRaw none, serve,
              Event.termRestore none], w.servePty ptyC cmd args⟩

/-- The same world with another result for `terminal.Restore`. -/
def World.withRestore (w : World) (re : GoError) : World :=
  { w with termRestore := re }

/-- A world for examples: every external call succeeds. -/
def calmWorld : World where
  GOOS := "linux"
  dial := fun _ _ => none
  newWhitelistClient := fun c => (some ⟨c⟩, none)
  newPtyClient := fun _ => none
  newProxyClient := fun _ _ _ => none
  makeRaw := none
  servePty := fun _ _ _ => none
  termRestore := none

/-- Constants for examples. -/
def sampleConsts : Consts := ⟨"unix", "/tmp/dmsgpty.sock"⟩

/-- A configuration with nothing set. -/
def emptyCLI : CLI := ⟨none, "", ""⟩

/-- The control endpoint refuses the connection. -/
def refusedWorld : World := { calmWorld with dial := fun _ _ => some "connection refused" }

/-- Standard input is not a terminal: `terminal.MakeRaw` fails. -/
def noTtyWorld : World := { calmWorld with makeRaw := some "inappropriate ioctl for device" }

/-- The session ends with an error from `servePty`. -/
def serveFailsWorld : World := { calmWorld with servePty := fun _ _ _ => some "context canceled" }

/-- A Windows host: `runtime.GOOS` is the lower-case string `windows`. -/
def windowsWorld : World := { calmWorld with GOOS := "windows" }

end Dmsgpty

/-! ## The proxy front-ends: `cmd/dmsgsocks` and `cmd/dmsgsocks-client` -/

namespace Proxy

/-- Go `error`: `none` is `nil`, `some msg` an error with that text. -/
abbrev GoError := Option String

/-- A `cipher.PubKey`, as its bytes. -/
structure PubKey where
  bytes : List Nat
deriving DecidableEq, Repr

/-- A `cipher.SecKey`, as its bytes; the unset flag value is the zero key. -/
structure SecKey where
  bytes : List Nat
deriving DecidableEq, Repr

/-- Which case of a `select` over `ctx.Done()` and the client's `Ready()` fires, if any. -/
inductive Select where
  | ctxDone
  | ready
  | never
deriving DecidableEq, Repr

/-- How the main flow of a command ends: it returns, the process exits from `log.Fatal`,
or it stays blocked on a receive for ever. -/
inductive Status (α : Type) where
  | returned (v : α)
  | exited (code : Nat)
  | blocked
deriving DecidableEq, Repr

/-- Calls made by the main flow of the two commands, in order. The `go...` events record
that a goroutine was started; what the goroutine does afterwards runs beside the main flow
and is not part of this trace. -/
inductive Ev where
  /-- `cmdutil.SignalContext` (dmsgsocks.go line 63). -/
  | signalContext
  /-- `context.WithCancel` (dmsgsocksc.go line 68). -/
  | withCancel
  /-- `dmsg.NewClient(pk, sk, disc.NewHTTP(dmsgDisc, ...), ...)`. -/
  | newClient (pk : PubKey) (sk : SecKey) (disc : String)
  /-- `go c.Serve(context.Background())`. -/
  | goServe
  /-- A log line or a line printed on standard output. -/
  | log (msg : String)
  /-- The transport client's `Close()`, with its result. -/
  | clientClose (err : GoError)
  /-- The goroutine of dmsgsocks.go lines 89-94 is started. -/
  | goCloseOnCancel
  /-- `proxy.SOCKS5(...)` (dmsgsocks.go line 100), with its error. -/
  | socks5 (err : GoError)
  /-- `log.Fatal`: the message is logged and the process exits with status 1. -/
  | fatal (msg : String)
  /-- The goroutine running `proxyServer.ListenAndServe` is started. -/
  | goListenAndServe
  /-- `signal.Notify(stop, os.Interrupt)` (dmsgsocksc.go line 97). -/
  | signalNotify
  /-- The blocking receive `<-ctx.Done()` (dmsgsocks.go line 114) or `<-stop`
  (dmsgsocksc.go line 98) has returned: the interrupt has been observed. -/
  | interrupt
  /-- `proxyServer.Close()` (dmsgsocks.go line 117). -/
  | serverClose
  /-- `proxyServer.Shutdown()` (dmsgsocksc.go line 99). -/
  | serverShutdown
  /-- The deferred `cancel()`. -/
  | cancel
deriving DecidableEq, Repr

/-- The outside world of the two commands. -/
structure World where
  /-- `cipher.SecKey.PubKey`. -/
  pubKeyOf : SecKey → Except String PubKey
  /-- The pair `cipher.GenerateKeyPair()` returns. -/
  generated : PubKey × SecKey
  /-- Which case of the `select` fires. -/
  selected : Select
  /-- The text of `ctx.Err()`. -/
  ctxErr : String
  /-- The result of the transport client's `Close()`. -/
  clientClose : GoError
  /-- The error of `proxy.SOCKS5`; the function of `golang.org/x/net/proxy` ends in
  `return d, nil`, so this is `none` in every run the program can have. -/
  socks5 : GoError
  /-- Whether the interrupt ever arrives while the main flow waits for it. -/
  interrupted : Bool

/-- What a command leaves behind: its package variables, the trace, and how it ended. -/
structure Result (G α : Type) where
  globals : G
  trace : List Ev
  status : Status α

/-- Whether the event stops the SOCKS5 server. -/
def Ev.isStop : Ev → Bool
  | .serverClose => true
  | .serverShutdown => true
  | _ => false

/-- The identities handed to `dmsg.NewClient` in a trace. -/
def identities (tr : List Ev) : List (PubKey × SecKey) :=
  tr.filterMap fun ev =>
    match ev with
    | .newClient pk sk _ => some (pk, sk)
    | _ => none

/-- Every stop of the SOCKS5 server in the trace has the observed interrupt before it. -/
def stopOnlyAfterInterrupt : List Ev → Bool
  | [] => true
  | ev :: rest =>
    if ev = Ev.interrupt then true
    else !ev.isStop && stopOnlyAfterInterrupt rest

/-- A world for examples: no key configured is derivable, the client gets ready, every
call succeeds and the interrupt arrives. -/
def calmWorld : World where
  pubKeyOf := fun sk => if sk.bytes = [] then .error "null secret key" else .ok ⟨0 :: sk.bytes⟩
  generated := (⟨[0, 9, 9]⟩, ⟨[9, 9]⟩)
  selected := .ready
  ctxErr := "context canceled"
  clientClose := none
  socks5 := none
  interrupted := true

end Proxy

namespace Dmsgsocks

open Proxy

/-- The package variables of dmsgsocks.go lines 23-27. -/
structure Globals where
  sk : SecKey
  dmsgDisc : String
  dmsgPort : Nat
deriving DecidableEq, Repr

/-- The deferred calls of `Run`, last registered first: the closure of lines 72-76
(`c.Close()`, its error logged), then `cancel()`. -/
def deferred (w : World) (tr : List Ev) : List Ev :=
  let err := w.clientClose
  let tr := tr ++ [Ev.clientClose err]
  let tr := match err with
    | some e => tr ++ [Ev.log e]
    | none => tr
  tr ++ [Ev.cancel]

/-- The `Run` function of `rootCmd`, dmsgsocks.go lines 60-118. -/
def Run (w : World) (g : Globals) : Result Globals Unit :=
  let tr := [Ev.signalContext]
  -- defer cancel()
  let (pk, sk) := match w.pubKeyOf g.sk with
    | .ok pk => (pk, g.sk)
    | .error _ => w.generated
  let g := { g with sk := sk }
  let tr := tr ++ [Ev.newClient pk sk g.dmsgDisc]
  -- defer func() { c.Close() ... }()
  let tr := tr ++ [Ev.goServe]
  match w.selected with
  | .never => ⟨g, tr, .blocked⟩
  | .ctxDone =>
    let tr := tr ++ [Ev.log w.ctxErr]
    ⟨g, deferred w tr, .returned ()⟩
  | .ready =>
    let tr := tr ++ [Ev.goCloseOnCancel]
    let tr := tr ++ [Ev.log "SOCKS5 Proxy Server started."]
    let err := w.socks5
    let tr := tr ++ [Ev.socks5 err]
    match err with
    | some _ => ⟨g, tr ++ [Ev.fatal "Failed to create SOCKS5 proxy server."], .exited 1⟩
    | none =>
      let tr := tr ++ [Ev.goListenAndServe]
      -- Wait for the context to be canceled
      if w.interrupted then
        let tr := tr ++ [Ev.interrupt]
        let tr := tr ++ [Ev.log "Stopping SOCKS5 Proxy Server."]
        let tr := tr ++ [Ev.serverClose]
        ⟨g, deferred w tr, .returned ()⟩
      else ⟨g, tr, .blocked⟩

/-- Sample package variables: no secret key configured. -/
def noKey : Globals := ⟨⟨[]⟩, "http://dmsgd.skywire.skycoin.com", 1080⟩

/-- Sample package variables: a secret key configured. -/
def withKey : Globals := ⟨⟨[4, 2]⟩, "http://dmsgd.skywire.skycoin.com", 1080⟩

end Dmsgsocks

namespace DmsgsocksClient

open Proxy

/-- The package variables of dmsgsocksc.go lines 24-30; `dmsggetLog` is `none` for a nil
logger. -/
structure Globals where
  dmsgDisc : String
  dmsgSessions : Int
  sk : SecKey
  dmsggetLog : Option String
  proxyAddr : String
deriving DecidableEq, Repr

/-- The `stop` closure of `startDmsg`, lines 110-113. -/
def stopFn (w : World) (tr : List Ev) : List Ev :=
  tr ++ [Ev.clientClose w.clientClose, Ev.log "Disconnected from dmsg network."]

/-- The function `startDmsg`, lines 106-127: the trace, and either the error of the
context or the `stop` closure of a ready client; `none` when the `select` never fires. -/
def startDmsg (w : World) (g : Globals) (pk : PubKey) (sk : SecKey) (tr : List Ev) :
    List Ev × Option (Except String (List Ev → List Ev)) :=
  let tr := tr ++ [Ev.newClient pk sk g.dmsgDisc]
  let tr := tr ++ [Ev.goServe]
  let tr := tr ++ [Ev.log "Connecting to dmsg network..."]
  match w.selected with
  | .ctxDone => (stopFn w tr, some (.error w.ctxErr))
  | .ready => (tr ++ [Ev.log "Dmsg network ready."], some (.ok (stopFn w)))
  | .never => (tr, none)

/-- The `RunE` function of `rootCmd`, dmsgsocksc.go lines 64-103. -/
def RunE (w : World) (g : Globals) : Result Globals GoError :=
  let g := if g.dmsggetLog = none then { g with dmsggetLog := some "dmsgget" } else g
  let tr := [Ev.withCancel]
  -- defer cancel()
  let (pk, sk) := match w.pubKeyOf g.sk with
    | .ok pk => (pk, g.sk)
    | .error _ => w.generated
  let g := { g with sk := sk }
  match startDmsg w g pk sk tr with
  | (tr, none) => ⟨g, tr, .blocked⟩
  | (tr, some (.error e)) =>
    ⟨g, tr ++ [Ev.cancel], .returned (some ("failed to start dmsg: " ++ e))⟩
  | (tr, some (.ok closeDmsg)) =>
    -- defer closeDmsg()
    let tr := tr ++ [Ev.goListenAndServe]
    let tr := tr ++ [Ev.signalNotify]
    if w.interrupted then
      let tr := tr ++ [Ev.interrupt]
      let tr := tr ++ [Ev.serverShutdown]
      let tr := tr ++ [Ev.log "SOCKS5 proxy server gracefully stopped"]
      ⟨g, closeDmsg tr ++ [Ev.cancel], .returned none⟩
    else ⟨g, tr, .blocked⟩

/-- Sample package variables: no secret key configured. -/
def noKey : Globals := ⟨"http://dmsgd.skywire.skycoin.com", 1, ⟨[]⟩, none, "localhost:1080"⟩

/-- Sample package variables: a secret key configured. -/
def withKey : Globals := ⟨"http://dmsgd.skywire.skycoin.com", 1, ⟨[4, 2]⟩, none, "localhost:1080"⟩

end DmsgsocksClient

/-! ## The vendored `sonic/unquote` wrapper -/

namespace Unquote

/-- The type `types.ParsingError`, an unsigned machine word. -/
abbrev ParsingError := Nat

/-- The conversion `types.ParsingError(i)` of a Go `int` to the unsigned 64-bit word. -/
def ParsingError.ofInt (i : Int) : ParsingError := (i % 2 ^ 64).toNat

/-- The slice header `rt.GoSlice`: `Ptr` stands for the bytes of the backing store. -/
structure GoSlice where
  Ptr : List Nat
  Len : Int
  Cap : Int
deriving DecidableEq, Repr

/-- The string header `rt.GoString`: `Ptr` stands for the bytes it points to. -/
structure GoString where
  Ptr : List Nat
  Len : Int
deriving DecidableEq, Repr

/-- One invocation of `native.Unquote(sp, nb, dp, ep, flags)`. -/
structure Call where
  sp : List Nat
  nb : Int
  dp : List Nat
  ep : Int
  flags : Nat
deriving DecidableEq, Repr

/-- What `unquote.go` uses from the packages `native` and `types`, which are not part of
the file: the constants `ERR_EOF` and `F_UNICODE_REPLACE`, and the native unquoter, which
returns a Go `int` and may write to the destination store and to `*ep`. -/
structure Native where
  ERR_EOF : ParsingError
  F_UNICODE_REPLACE : Nat
  Unquote : Call → Int × List Nat × Int

/-- The result of a call: the error, the slice `*m` afterwards, and the native
invocations made. -/
structure Out where
  err : ParsingError
  m : GoSlice
  calls : List Call
deriving DecidableEq, Repr

/-- The function `intoBytesUnsafe`, unquote.go lines 43-59. -/
def intoBytesUnsafe (nv : Native) (s : List Nat) (m : GoSlice) : Out :=
  let pos : Int := -1
  let call : Call := ⟨s, s.length, m.Ptr, pos, nv.F_UNICODE_REPLACE⟩
  let (ret, dp, _) := nv.Unquote call
  let m := { m with Ptr := dp }
  /- check for errors -/
  if ret < 0 then
    ⟨ParsingError.ofInt (-ret), m, [call]⟩
  else
    /- update the length -/
    ⟨0, { m with Len := ret }, [call]⟩

/-- The function `IntoBytes`, unquote.go lines 35-41. -/
def IntoBytes (nv : Native) (s : List Nat) (m : GoSlice) : Out :=
  if m.Cap < s.length then
    ⟨nv.ERR_EOF, m, []⟩
  else
    intoBytesUnsafe nv s m

/-- The function `String` of unquote.go lines 28-33 (named `String` in the source): the
returned string header, the error, and the native invocations made. -/
def String (nv : Native) (s : List Nat) : GoString × ParsingError × List Call :=
  let mm : GoSlice := ⟨List.replicate s.length 0, 0, s.length⟩
  let out := intoBytesUnsafe nv s mm
  let ret : GoString := ⟨out.m.Ptr, out.m.Len⟩
  (ret, out.err, out.calls)

/-- The native result for input `s` and destination store `dp`, as the wrapper calls
it. -/
def nativeResult (nv : Native) (s : List Nat) (dp : List Nat) : Int :=
  (nv.Unquote ⟨s, s.length, dp, -1, nv.F_UNICODE_REPLACE⟩).1

/-- A toy unquoter for examples: rejects an input that starts with a backslash (code 92)
with result `-3`, and otherwise copies the input. -/
def toyNative : Native where
  ERR_EOF := 1
  F_UNICODE_REPLACE := 2
  Unquote := fun c =>
    if c.sp.head? = some 92 then (-3, c.dp, 0) else (c.nb, c.sp, c.ep)

end Unquote

/-! ## Lemmas on `cli.go` -/

namespace Dmsgpty

theorem prepareConn_eq (k : Consts) (w : World) (cli : CLI) (tr : List Event) :
    prepareConn k w cli tr =
      ⟨⟨effLog cli, effNet k cli, effAddr k cli⟩,
        tr ++ [Event.logRequesting (effNet k cli ++ "://" ++ effAddr k cli),
          Event.dial (effNet k cli) (effAddr k cli) (w.dial (effNet k cli) (effAddr k cli))],
        match w.dial (effNet k cli) (effAddr k cli) with
        | some e => .error ("failed to connect to dmsgpty-host: " ++ e)
        | none => .ok ⟨effNet k cli, effAddr k cli⟩⟩ := by
  obtain ⟨l, n, a⟩ := cli
  simp only [prepareConn, effLog, effNet, effAddr]
  by_cases hl : l = none <;> by_cases hn : n = "" <;> by_cases ha : a = "" <;>
    simp only [hl, hn, ha, if_true, if_false] <;>
    cases w.dial _ _ <;> simp

theorem StartLocalPty_eq (k : Consts) (w : World) (cli : CLI) (cmd : String)
    (args : List String) :
    CLI.StartLocalPty k w cli cmd args =
      ptyRun w ⟨effLog cli, effNet k cli, effAddr k cli⟩ ⟨⟨effNet k cli, effAddr k cli⟩, none⟩
        (w.dial (effNet k cli) (effAddr k cli))
        (w.newPtyClient ⟨effNet k cli, effAddr k cli⟩) cmd args := by
  simp only [CLI.StartLocalPty, prepareConn_eq, prepareStdin, restoreFn, ptyRun,
    negotiateEvent]
  generalize effNet k cli = n
  generalize effAddr k cli = a
  rcases hd : w.dial n a with _ | e
  · rcases hc : w.newPtyClient ⟨n, a⟩ with _ | e
    · by_cases hg : w.GOOS = "Windows"
      · simp [hg, hc]
      · rcases hm : w.makeRaw with _ | e
        · rcases hr : w.termRestore with _ | e <;> simp [hg, hc, hm, hr, restoreFn]
        · simp [hg, hc, hm]
    · simp [hc]
  · simp

theorem StartRemotePty_eq (k : Consts) (w : World) (cli : CLI) (rPK : List Nat)
    (rPort : Nat) (cmd : String) (args : List String) :
    CLI.StartRemotePty k w cli rPK rPort cmd args =
      ptyRun w ⟨effLog cli, effNet k cli, effAddr k cli⟩
        ⟨⟨effNet k cli, effAddr k cli⟩, some (rPK, rPort)⟩
        (w.dial (effNet k cli) (effAddr k cli))
        (w.newProxyClient ⟨effNet k cli, effAddr k cli⟩ rPK rPort) cmd args := by
  simp only [CLI.StartRemotePty, prepareConn_eq, prepareStdin, restoreFn, ptyRun,
    negotiateEvent]
  generalize effNet k cli = n
  generalize effAddr k cli = a
  rcases hd : w.dial n a with _ | e
  · rcases hc : w.newProxyClient ⟨n, a⟩ rPK rPort with _ | e
    · by_cases hg : w.GOOS = "Windows"
      · simp [hg, hc]
      · rcases hm : w.makeRaw with _ | e
        · rcases hr : w.termRestore with _ | e <;> simp [hg, hc, hm, hr, restoreFn]
        · simp [hg, hc, hm]
    · simp [hc]
  · simp

theorem ptyRun_restore_count (w : World) (cli : CLI) (ptyC : PtyClient) (d c : GoError)
    (cmd : String) (args : List String) :
    (Event.makeRaw none ∈ (ptyRun w cli ptyC d c cmd args).trace →
        (ptyRun w cli ptyC d c cmd args).trace.countP Event.isRestore = 1) ∧
    (Event.makeRaw none ∉ (ptyRun w cli ptyC d c cmd args).trace →
        (ptyRun w cli ptyC d c cmd args).trace.countP Event.isRestore = 0) := by
  obtain ⟨conn, rem⟩ := ptyC
  unfold ptyRun
  rcases d with _ | e <;> rcases c with _ | e <;> rcases hm : w.makeRaw with _ | e <;>
    rcases hr : w.termRestore with _ | e <;> by_cases hg : w.GOOS = "Windows" <;>
    rcases rem with _ | ⟨pk, port⟩ <;>
    simp [hg, negotiateEvent, Event.isRestore, List.countP_cons]

theorem ptyRun_rawFail (w : World) (cli : CLI) (ptyC : PtyClient) (d c : GoError)
    (cmd : String) (args : List String) (e : String)
    (h : Event.makeRaw (some e) ∈ (ptyRun w cli ptyC d c cmd args).trace) :
    (ptyRun w cli ptyC d c cmd args).ret = some e ∧
    (∀ ev ∈ (ptyRun w cli ptyC d c cmd args).trace,
      ev.isServe = false ∧ ev.isRestore = false) ∧
    Event.warnRawFailed e ∈ (ptyRun w cli ptyC d c cmd args).trace := by
  obtain ⟨conn, rem⟩ := ptyC
  revert h
  unfold ptyRun
  rcases rem with _ | ⟨pk, port⟩ <;> rcases d with _ | e1
  all_goals first
    | (simp [negotiateEvent, Event.isServe, Event.isRestore]; done)
    | skip
  all_goals rcases c with _ | e2
  all_goals first
    | (simp [negotiateEvent, Event.isServe, Event.isRestore]; done)
    | skip
  all_goals by_cases hg : w.GOOS = "Windows"
  all_goals first
    | (simp [hg, negotiateEvent, Event.isServe, Event.isRestore]; done)
    | skip
  all_goals rcases hm : w.makeRaw with _ | e3 <;> rcases hr : w.termRestore with _ | e4 <;>
    simp [hg, negotiateEvent, Event.isServe, Event.isRestore]
  all_goals intro h; subst h; simp

theorem ptyRun_ret (w : World) (cli : CLI) (ptyC : PtyClient) (d c : GoError)
    (cmd : String) (args : List String) :
    (∀ ev ∈ (ptyRun w cli ptyC d c cmd args).trace, ev.isServe = true →
      ev = Event.servePty ptyC cmd args (w.servePty ptyC cmd args) ∧
      (ptyRun w cli ptyC d c cmd args).ret = w.servePty ptyC cmd args) ∧
    (∀ ev ∈ (ptyRun w cli ptyC d c cmd args).trace, ev.isRestore = true →
      Event.servePty ptyC cmd args (ptyRun w cli ptyC d c cmd args).ret ∈
        (ptyRun w cli ptyC d c cmd args).trace) ∧
    (∀ e, Event.termRestore (some e) ∈ (ptyRun w cli ptyC d c cmd args).trace →
      Event.errorRestoreFailed e ∈ (ptyRun w cli ptyC d c cmd args).trace) := by
  obtain ⟨conn, rem⟩ := ptyC
  unfold ptyRun
  rcases rem with _ | ⟨pk, port⟩ <;> rcases d with _ | e1
  all_goals first
    | (simp [negotiateEvent, Event.isServe, Event.isRestore]; done)
    | skip
  all_goals rcases c with _ | e2
  all_goals first
    | (simp [negotiateEvent, Event.isServe, Event.isRestore]; done)
    | skip
  all_goals by_cases hg : w.GOOS = "Windows"
  all_goals first
    | (simp [hg, negotiateEvent, Event.isServe, Event.isRestore]; done)
    | skip
  all_goals rcases hm : w.makeRaw with _ | e3 <;> rcases hr : w.termRestore with _ | e4 <;>
    simp [hg, negotiateEvent, Event.isServe, Event.isRestore]

theorem ptyRun_withRestore (w : World) (cli : CLI) (ptyC : PtyClient) (d c : GoError)
    (cmd : String) (args : List String) (re : GoError) :
    (ptyRun (w.withRestore re) cli ptyC d c cmd args).ret =
      (ptyRun w cli ptyC d c cmd args).ret := by
  unfold ptyRun World.withRestore
  rcases d with _ | e1 <;> rcases c with _ | e2 <;> rcases hm : w.makeRaw with _ | e3 <;>
    rcases hr : w.termRestore with _ | e4 <;> rcases re with _ | e5 <;>
    by_cases hg : w.GOOS = "Windows" <;> simp [hg, hm, hr]

theorem ptyRun_dialFail (w : World) (cli : CLI) (ptyC : PtyClient) (c : GoError)
    (cmd : String) (args : List String) (e : String) :
    ptyRun w cli ptyC (some e) c cmd args =
      ⟨cli, [Event.logRequesting (ptyC.conn.net ++ "://" ++ ptyC.conn.addr),
          Event.dial ptyC.conn.net ptyC.conn.addr (some e)],
        some ("failed to connect to dmsgpty-host: " ++ e)⟩ := by
  simp [ptyRun]

theorem whitelist_dialFail (k : Consts) (w : World) (cli : CLI) (e : String)
    (h : w.dial (effNet k cli) (effAddr k cli) = some e) :
    (CLI.WhitelistClient k w cli).ret =
      (none, some ("failed to connect to dmsgpty-host: " ++ e)) ∧
    (CLI.WhitelistClient k w cli).trace =
      [Event.logRequesting (effNet k cli ++ "://" ++ effAddr k cli),
        Event.dial (effNet k cli) (effAddr k cli) (some e)] := by
  simp [CLI.WhitelistClient, prepareConn_eq, h]

end Dmsgpty

/-! ## Claims on `cli.go` -/

namespace Dmsgpty

/-- C1: in `StartLocalPty` and in `StartRemotePty`, a run in which raw mode was entered
(`terminal.MakeRaw` returned no error) calls `terminal.Restore` exactly once before it
returns, whatever `servePty` returns; a run in which raw mode was not entered never calls
it. -/
theorem restore_once_iff_raw_entered (k : Consts) (w : World) (cli : CLI) (rPK : List Nat)
    (rPort : Nat) (cmd : String) (args : List String) :
    ((Event.makeRaw none ∈ (CLI.StartLocalPty k w cli cmd args).trace →
        (CLI.StartLocalPty k w cli cmd args).trace.countP Event.isRestore = 1) ∧
     (Event.makeRaw none ∉ (CLI.StartLocalPty k w cli cmd args).trace →
        (CLI.StartLocalPty k w cli cmd args).trace.countP Event.isRestore = 0)) ∧
    ((Event.makeRaw none ∈ (CLI.StartRemotePty k w cli rPK rPort cmd args).trace →
        (CLI.StartRemotePty k w cli rPK rPort cmd args).trace.countP Event.isRestore = 1) ∧
     (Event.makeRaw none ∉ (CLI.StartRemotePty k w cli rPK rPort cmd args).trace →
        (CLI.StartRemotePty k w cli rPK rPort cmd args).trace.countP Event.isRestore = 0)) := by
  rw [StartLocalPty_eq, StartRemotePty_eq]
  exact ⟨ptyRun_restore_count _ _ _ _ _ _ _, ptyRun_restore_count _ _ _ _ _ _ _⟩

/-- Witness for C1: the session ends with an error, raw mode had been entered, and the
terminal is restored once; without a terminal it is never restored. -/
theorem restore_once_iff_raw_entered_witness :
    (Event.makeRaw none ∈ (CLI.StartLocalPty sampleConsts serveFailsWorld emptyCLI "sh" []).trace ∧
      (CLI.StartLocalPty sampleConsts serveFailsWorld emptyCLI "sh" []).trace.countP
        Event.isRestore = 1) ∧
    (Event.makeRaw none ∉
        (CLI.StartRemotePty sampleConsts noTtyWorld emptyCLI [2, 7] 22 "sh" []).trace ∧
      (CLI.StartRemotePty sampleConsts noTtyWorld emptyCLI [2, 7] 22 "sh" []).trace.countP
        Event.isRestore = 0) :=
  ⟨⟨by decide,
      (restore_once_iff_raw_entered sampleConsts serveFailsWorld emptyCLI [] 0 "sh" []).1.1
        (by decide)⟩,
    ⟨by decide,
      (restore_once_iff_raw_entered sampleConsts noTtyWorld emptyCLI [2, 7] 22 "sh" []).2.2
        (by decide)⟩⟩

/-- C3, as written, fails: with standard input not a terminal, `StartLocalPty` and
`StartRemotePty` return the error of `terminal.MakeRaw` although `servePty` would have
returned nil, and `servePty` is never called. -/
theorem raw_failure_is_returned_example :
    ((CLI.StartLocalPty sampleConsts noTtyWorld emptyCLI "sh" []).ret =
        some "inappropriate ioctl for device" ∧
      noTtyWorld.servePty ⟨⟨"unix", "/tmp/dmsgpty.sock"⟩, none⟩ "sh" [] = none ∧
      (CLI.StartLocalPty sampleConsts noTtyWorld emptyCLI "sh" []).trace =
        [Event.logRequesting "unix:///tmp/dmsgpty.sock",
          Event.dial "unix" "/tmp/dmsgpty.sock" none,
          Event.newPtyClient ⟨"unix", "/tmp/dmsgpty.sock"⟩ none,
          Event.makeRaw (some "inappropriate ioctl for device"),
          Event.warnRawFailed "inappropriate ioctl for device"]) ∧
    ((CLI.StartRemotePty sampleConsts noTtyWorld emptyCLI [2, 7] 22 "sh" []).ret =
        some "inappropriate ioctl for device" ∧
      (CLI.StartRemotePty sampleConsts noTtyWorld emptyCLI [2, 7] 22 "sh" []).trace.all
        (fun ev => !ev.isServe) = true) := by
  decide

/-- C3, amended: when `terminal.MakeRaw` fails with error `e`, `prepareStdin` logs a
warning and `StartLocalPty` / `StartRemotePty` return `e`; `servePty` is not run and
`terminal.Restore` is not called. -/
theorem raw_failure_is_returned (k : Consts) (w : World) (cli : CLI) (rPK : List Nat)
    (rPort : Nat) (cmd : String) (args : List String) (e : String) :
    (Event.makeRaw (some e) ∈ (CLI.StartLocalPty k w cli cmd args).trace →
      (CLI.StartLocalPty k w cli cmd args).ret = some e ∧
      (∀ ev ∈ (CLI.StartLocalPty k w cli cmd args).trace,
        ev.isServe = false ∧ ev.isRestore = false) ∧
      Event.warnRawFailed e ∈ (CLI.StartLocalPty k w cli cmd args).trace) ∧
    (Event.makeRaw (some e) ∈ (CLI.StartRemotePty k w cli rPK rPort cmd args).trace →
      (CLI.StartRemotePty k w cli rPK rPort cmd args).ret = some e ∧
      (∀ ev ∈ (CLI.StartRemotePty k w cli rPK rPort cmd args).trace,
        ev.isServe = false ∧ ev.isRestore = false) ∧
      Event.warnRawFailed e ∈ (CLI.StartRemotePty k w cli rPK rPort cmd args).trace) := by
  rw [StartLocalPty_eq, StartRemotePty_eq]
  exact ⟨ptyRun_rawFail _ _ _ _ _ _ _ e, ptyRun_rawFail _ _ _ _ _ _ _ e⟩

/-- Witness for the amended C3, on a host whose standard input is not a terminal. -/
theorem raw_failure_is_returned_witness :
    Event.makeRaw (some "inappropriate ioctl for device") ∈
        (CLI.StartLocalPty sampleConsts noTtyWorld emptyCLI "sh" []).trace ∧
      (CLI.StartLocalPty sampleConsts noTtyWorld emptyCLI "sh" []).ret =
        some "inappropriate ioctl for device" :=
  ⟨by decide,
    ((raw_failure_is_returned sampleConsts noTtyWorld emptyCLI [] 0 "sh" []
      "inappropriate ioctl for device").1 (by decide)).1⟩

/-- C4, at the failing input: on a Windows host (`runtime.GOOS` is `windows`) both
operations still call `terminal.MakeRaw` and register the restore, because the source
compares the platform name with `Windows`. -/
theorem windows_host_enters_raw_mode :
    (CLI.StartLocalPty sampleConsts windowsWorld emptyCLI "cmd" []).trace =
      [Event.logRequesting "unix:///tmp/dmsgpty.sock",
        Event.dial "unix" "/tmp/dmsgpty.sock" none,
        Event.newPtyClient ⟨"unix", "/tmp/dmsgpty.sock"⟩ none,
        Event.makeRaw none,
        Event.servePty ⟨⟨"unix", "/tmp/dmsgpty.sock"⟩, none⟩ "cmd" [] none,
        Event.termRestore none] ∧
    Event.makeRaw none ∈
      (CLI.StartRemotePty sampleConsts windowsWorld emptyCLI [2, 7] 22 "cmd" []).trace := by
  decide

/-- C5: whatever `terminal.Restore` returns (`re`), the value returned by
`StartLocalPty` / `StartRemotePty` is the same; in a run where the terminal is restored,
`servePty` was called and the returned value is exactly what `servePty` returned; and a
failure of the restore is only logged. -/
theorem restore_failure_never_changes_result (k : Consts) (w : World) (cli : CLI)
    (rPK : List Nat) (rPort : Nat) (cmd : String) (args : List String) (re : GoError) :
    ((CLI.StartLocalPty k (w.withRestore re) cli cmd args).ret =
        (CLI.StartLocalPty k w cli cmd args).ret ∧
      (∀ ev ∈ (CLI.StartLocalPty k (w.withRestore re) cli cmd args).trace,
        ev.isRestore = true →
        ∃ ptyC, Event.servePty ptyC cmd args
            (CLI.StartLocalPty k (w.withRestore re) cli cmd args).ret ∈
          (CLI.StartLocalPty k (w.withRestore re) cli cmd args).trace) ∧
      (∀ e, Event.termRestore (some e) ∈
          (CLI.StartLocalPty k (w.withRestore re) cli cmd args).trace →
        Event.errorRestoreFailed e ∈
          (CLI.StartLocalPty k (w.withRestore re) cli cmd args).trace)) ∧
    ((CLI.StartRemotePty k (w.withRestore re) cli rPK rPort cmd args).ret =
        (CLI.StartRemotePty k w cli rPK rPort cmd args).ret ∧
      (∀ ev ∈ (CLI.StartRemotePty k (w.withRestore re) cli rPK rPort cmd args).trace,
        ev.isRestore = true →
        ∃ ptyC, Event.servePty ptyC cmd args
            (CLI.StartRemotePty k (w.withRestore re) cli rPK rPort cmd args).ret ∈
          (CLI.StartRemotePty k (w.withRestore re) cli rPK rPort cmd args).trace) ∧
      (∀ e, Event.termRestore (some e) ∈
          (CLI.StartRemotePty k (w.withRestore re) cli rPK rPort cmd args).trace →
        Event.errorRestoreFailed e ∈
          (CLI.StartRemotePty k (w.withRestore re) cli rPK rPort cmd args).trace)) := by
  rw [StartLocalPty_eq, StartRemotePty_eq, StartLocalPty_eq, StartRemotePty_eq]
  have hd : (w.withRestore re).dial = w.dial := rfl
  have hp : (w.withRestore re).newPtyClient = w.newPtyClient := rfl
  have hx : (w.withRestore re).newProxyClient = w.newProxyClient := rfl
  rw [hd, hp, hx]
  have hL := ptyRun_ret (w.withRestore re) ⟨effLog cli, effNet k cli, effAddr k cli⟩
    ⟨⟨effNet k cli, effAddr k cli⟩, none⟩ (w.dial (effNet k cli) (effAddr k cli))
    (w.newPtyClient ⟨effNet k cli, effAddr k cli⟩) cmd args
  have hR := ptyRun_ret (w.withRestore re) ⟨effLog cli, effNet k cli, effAddr k cli⟩
    ⟨⟨effNet k cli, effAddr k cli⟩, some (rPK, rPort)⟩ (w.dial (effNet k cli) (effAddr k cli))
    (w.newProxyClient ⟨effNet k cli, effAddr k cli⟩ rPK rPort) cmd args
  exact ⟨⟨ptyRun_withRestore _ _ _ _ _ _ _ _, fun ev hev hr => ⟨_, hL.2.1 ev hev hr⟩, hL.2.2⟩,
    ⟨ptyRun_withRestore _ _ _ _ _ _ _ _, fun ev hev hr => ⟨_, hR.2.1 ev hev hr⟩, hR.2.2⟩⟩

/-- Witness for C5: the session ends with `context canceled` and the restore fails with
`bad file descriptor`; the operation returns `context canceled` and the restore failure
is in the log. -/
theorem restore_failure_never_changes_result_witness :
    (CLI.StartLocalPty sampleConsts (serveFailsWorld.withRestore (some "bad file descriptor"))
        emptyCLI "sh" []).ret = some "context canceled" ∧
    Event.errorRestoreFailed "bad file descriptor" ∈
      (CLI.StartLocalPty sampleConsts (serveFailsWorld.withRestore (some "bad file descriptor"))
        emptyCLI "sh" []).trace :=
  ⟨((restore_failure_never_changes_result sampleConsts serveFailsWorld emptyCLI [] 0 "sh" []
      (some "bad file descriptor")).1.1).trans (by decide),
    (restore_failure_never_changes_result sampleConsts serveFailsWorld emptyCLI [] 0 "sh" []
      (some "bad file descriptor")).1.2.2 "bad file descriptor" (by decide)⟩

/-- C6: in `WhitelistClient`, `StartLocalPty` and `StartRemotePty` (and in `prepareConn`
itself), when the dial of the control endpoint fails with error `e`, the operation
returns the error `failed to connect to dmsgpty-host: ` followed by `e`, with no
connection and no client; the whole run is the log line and that one dial, so the dial
is attempted exactly once and there is no negotiation, no raw mode, no `servePty` and no
restore. -/
theorem dial_failure_stops_everything (k : Consts) (w : World) (cli : CLI) (rPK : List Nat)
    (rPort : Nat) (cmd : String) (args : List String) (e : String)
    (h : w.dial (effNet k cli) (effAddr k cli) = some e) :
    ((prepareConn k w cli []).ret = .error ("failed to connect to dmsgpty-host: " ++ e) ∧
      (prepareConn k w cli []).trace =
        [Event.logRequesting (effNet k cli ++ "://" ++ effAddr k cli),
          Event.dial (effNet k cli) (effAddr k cli) (some e)]) ∧
    ((CLI.WhitelistClient k w cli).ret =
        (none, some ("failed to connect to dmsgpty-host: " ++ e)) ∧
      (CLI.WhitelistClient k w cli).trace =
        [Event.logRequesting (effNet k cli ++ "://" ++ effAddr k cli),
          Event.dial (effNet k cli) (effAddr k cli) (some e)] ∧
      (CLI.WhitelistClient k w cli).trace.countP Event.isDial = 1 ∧
      (∀ ev ∈ (CLI.WhitelistClient k w cli).trace, ev.step = none ∨ ev.step = some 0)) ∧
    ((CLI.StartLocalPty k w cli cmd args).ret =
        some ("failed to connect to dmsgpty-host: " ++ e) ∧
      (CLI.StartLocalPty k w cli cmd args).trace =
        [Event.logRequesting (effNet k cli ++ "://" ++ effAddr k cli),
          Event.dial (effNet k cli) (effAddr k cli) (some e)] ∧
      (CLI.StartLocalPty k w cli cmd args).trace.countP Event.isDial = 1 ∧
      (∀ ev ∈ (CLI.StartLocalPty k w cli cmd args).trace,
        ev.step = none ∨ ev.step = some 0)) ∧
    ((CLI.StartRemotePty k w cli rPK rPort cmd args).ret =
        some ("failed to connect to dmsgpty-host: " ++ e) ∧
      (CLI.StartRemotePty k w cli rPK rPort cmd args).trace =
        [Event.logRequesting (effNet k cli ++ "://" ++ effAddr k cli),
          Event.dial (effNet k cli) (effAddr k cli) (some e)] ∧
      (CLI.StartRemotePty k w cli rPK rPort cmd args).trace.countP Event.isDial = 1 ∧
      (∀ ev ∈ (CLI.StartRemotePty k w cli rPK rPort cmd args).trace,
        ev.step = none ∨ ev.step = some 0)) := by
  have hw := whitelist_dialFail k w cli e h
  rw [StartLocalPty_eq, StartRemotePty_eq, h, ptyRun_dialFail, ptyRun_dialFail, hw.1, hw.2,
    prepareConn_eq, h]
  simp [Event.isDial, Event.step, List.countP_cons]

/-- Witness for C6: the control endpoint refuses the connection; each of the three
operations returns the wrapped error after its one dial. -/
theorem dial_failure_stops_everything_witness :
    refusedWorld.dial (effNet sampleConsts emptyCLI) (effAddr sampleConsts emptyCLI) =
        some "connection refused" ∧
    (CLI.WhitelistClient sampleConsts refusedWorld emptyCLI).ret =
        (none, some "failed to connect to dmsgpty-host: connection refused") ∧
    (CLI.StartLocalPty sampleConsts refusedWorld emptyCLI "sh" []).ret =
        some "failed to connect to dmsgpty-host: connection refused" ∧
    (CLI.StartRemotePty sampleConsts refusedWorld emptyCLI [2, 7] 22 "sh" []).ret =
        some "failed to connect to dmsgpty-host: connection refused" ∧
    (CLI.StartRemotePty sampleConsts refusedWorld emptyCLI [2, 7] 22 "sh" []).trace.countP
        Event.isDial = 1 :=
  ⟨rfl,
    ((dial_failure_stops_everything sampleConsts refusedWorld emptyCLI [2, 7] 22 "sh" []
      "connection refused" rfl).2.1.1).trans (by decide),
    ((dial_failure_stops_everything sampleConsts refusedWorld emptyCLI [2, 7] 22 "sh" []
      "connection refused" rfl).2.2.1.1).trans (by decide),
    ((dial_failure_stops_everything sampleConsts refusedWorld emptyCLI [2, 7] 22 "sh" []
      "connection refused" rfl).2.2.2.1).trans (by decide),
    (dial_failure_stops_everything sampleConsts refusedWorld emptyCLI [2, 7] 22 "sh" []
      "connection refused" rfl).2.2.2.2.2.1⟩

/-- C7: after `prepareConn` the network is the default if it was empty and otherwise
unchanged, likewise and independently the address; the one dial made uses exactly these
values; and running the defaulting again on the result changes nothing. -/
theorem prepareConn_defaults (k : Consts) (w : World) (cli : CLI) (tr : List Event) :
    (prepareConn k w cli tr).cli.Net =
      (if cli.Net = "" then k.DefaultCLINet else cli.Net) ∧
    (prepareConn k w cli tr).cli.Addr =
      (if cli.Addr = "" then k.DefaultCLIAddr else cli.Addr) ∧
    (∃ lg, (prepareConn k w cli tr).trace =
      tr ++ [Event.logRequesting lg,
        Event.dial (prepareConn k w cli tr).cli.Net (prepareConn k w cli tr).cli.Addr
          (w.dial (prepareConn k w cli tr).cli.Net (prepareConn k w cli tr).cli.Addr)]) ∧
    (∀ (w2 : World) (tr2 : List Event),
      (prepareConn k w2 (prepareConn k w cli tr).cli tr2).cli =
        (prepareConn k w cli tr).cli) := by
  simp only [prepareConn_eq]
  refine ⟨rfl, rfl, ⟨_, rfl⟩, ?_⟩
  intro w2 tr2
  obtain ⟨l, n, a⟩ := cli
  simp only [effLog, effNet, effAddr]
  by_cases hl : l = none <;> by_cases hn : n = "" <;> by_cases ha : a = "" <;>
    by_cases hkn : k.DefaultCLINet = "" <;> by_cases hka : k.DefaultCLIAddr = "" <;>
    simp [hl, hn, ha, hkn, hka]

end Dmsgpty

/-! ## Lemmas and claims on the proxy front-ends -/

namespace Proxy

theorem stopOnlyAfterInterrupt_spec (tr : List Ev) (h : stopOnlyAfterInterrupt tr = true) :
    ∀ pre ev post, tr = pre ++ ev :: post → ev.isStop = true → Ev.interrupt ∈ pre := by
  induction tr with
  | nil => intro pre ev post h1; simp at h1
  | cons x xs ih =>
    intro pre ev post h1 h2
    rcases pre with _ | ⟨p, ps⟩
    · simp only [List.nil_append, List.cons.injEq] at h1
      obtain ⟨rfl, -⟩ := h1
      simp only [stopOnlyAfterInterrupt] at h
      by_cases hx : x = Ev.interrupt
      · subst hx; simp [Ev.isStop] at h2
      · simp [hx, h2] at h
    · simp only [List.cons_append, List.cons.injEq] at h1
      obtain ⟨rfl, h1⟩ := h1
      simp only [stopOnlyAfterInterrupt] at h
      by_cases hx : x = Ev.interrupt
      · simp [hx]
      · simp only [hx, if_false, Bool.and_eq_true] at h
        exact List.mem_cons_of_mem _ (ih h.2 ps ev post h1 h2)

end Proxy

namespace Dmsgsocks

open Proxy

theorem Run_safe (w : World) (g : Globals) :
    (Run w g).trace.countP Ev.isStop ≤ 1 ∧ stopOnlyAfterInterrupt (Run w g).trace = true := by
  unfold Run deferred
  rcases w.pubKeyOf g.sk with e | pk <;> rcases w.selected <;> rcases w.socks5 with _ | e1 <;>
    rcases w.clientClose with _ | e2 <;> rcases w.interrupted <;>
    simp [stopOnlyAfterInterrupt, Ev.isStop, List.countP_cons]

theorem Run_live (w : World) (g : Globals) (hr : w.selected = Select.ready)
    (hs : w.socks5 = none) (hi : w.interrupted = true) :
    (Run w g).trace.countP Ev.isStop = 1 ∧ (Run w g).status = Status.returned () ∧
      Ev.clientClose w.clientClose ∈ (Run w g).trace := by
  unfold Run deferred
  rw [hr, hs, hi]
  rcases w.pubKeyOf g.sk with e | pk <;> rcases w.clientClose with _ | e2 <;>
    simp [Ev.isStop, List.countP_cons]

end Dmsgsocks

namespace DmsgsocksClient

open Proxy

theorem RunE_safe (w : World) (g : Globals) :
    (RunE w g).trace.countP Ev.isStop ≤ 1 ∧
      stopOnlyAfterInterrupt (RunE w g).trace = true := by
  have hsk : (if g.dmsggetLog = none then
      { g with dmsggetLog := some "dmsgget" } else g).sk = g.sk := by
    split <;> rfl
  simp only [RunE, startDmsg, stopFn, hsk]
  rcases w.pubKeyOf g.sk with e | pk <;> rcases w.selected <;> rcases w.interrupted <;>
    simp [stopFn, stopOnlyAfterInterrupt, Ev.isStop, List.countP_cons]

theorem RunE_live (w : World) (g : Globals) (hr : w.selected = Select.ready)
    (hi : w.interrupted = true) :
    (RunE w g).trace.countP Ev.isStop = 1 ∧ (RunE w g).status = Status.returned none ∧
      Ev.clientClose w.clientClose ∈ (RunE w g).trace := by
  have hsk : (if g.dmsggetLog = none then
      { g with dmsggetLog := some "dmsgget" } else g).sk = g.sk := by
    split <;> rfl
  simp only [RunE, startDmsg, stopFn, hsk, hr, hi]
  rcases w.pubKeyOf g.sk with e | pk <;> simp [stopFn, Ev.isStop, List.countP_cons]

end DmsgsocksClient

namespace Proxy

/-- C8: in both front-ends the main flow stops the SOCKS5 server (`Close` in dmsgsocks,
`Shutdown` in dmsgsocks-client) at most once and never before it has observed the
interrupt; and once the transport client is ready and the interrupt arrives, it stops the
server exactly once, then returns normally (`RunE` returns nil), with the client's `Close`
called by then. For dmsgsocks this is with `proxy.SOCKS5` returning no error, which is
what the library function returns on every call. -/
theorem stop_once_after_interrupt (w : World) (gs : Dmsgsocks.Globals)
    (gc : DmsgsocksClient.Globals) :
    ((Dmsgsocks.Run w gs).trace.countP Ev.isStop ≤ 1 ∧
      (∀ pre ev post, (Dmsgsocks.Run w gs).trace = pre ++ ev :: post → ev.isStop = true →
        Ev.interrupt ∈ pre) ∧
      (w.selected = Select.ready → w.socks5 = none → w.interrupted = true →
        (Dmsgsocks.Run w gs).trace.countP Ev.isStop = 1 ∧
        (Dmsgsocks.Run w gs).status = Status.returned () ∧
        Ev.clientClose w.clientClose ∈ (Dmsgsocks.Run w gs).trace)) ∧
    ((DmsgsocksClient.RunE w gc).trace.countP Ev.isStop ≤ 1 ∧
      (∀ pre ev post, (DmsgsocksClient.RunE w gc).trace = pre ++ ev :: post →
        ev.isStop = true → Ev.interrupt ∈ pre) ∧
      (w.selected = Select.ready → w.interrupted = true →
        (DmsgsocksClient.RunE w gc).trace.countP Ev.isStop = 1 ∧
        (DmsgsocksClient.RunE w gc).status = Status.returned none ∧
        Ev.clientClose w.clientClose ∈ (DmsgsocksClient.RunE w gc).trace)) :=
  ⟨⟨(Dmsgsocks.Run_safe w gs).1, stopOnlyAfterInterrupt_spec _ (Dmsgsocks.Run_safe w gs).2,
      Dmsgsocks.Run_live w gs⟩,
    ⟨(DmsgsocksClient.RunE_safe w gc).1,
      stopOnlyAfterInterrupt_spec _ (DmsgsocksClient.RunE_safe w gc).2,
      DmsgsocksClient.RunE_live w gc⟩⟩

/-- Witness for C8: the client is ready, every call succeeds and the
interrupt arrives. -/
theorem stop_once_after_interrupt_witness :
    (Dmsgsocks.Run calmWorld Dmsgsocks.noKey).trace.countP Ev.isStop = 1 ∧
    (DmsgsocksClient.RunE calmWorld DmsgsocksClient.noKey).status = Status.returned none :=
  ⟨((stop_once_after_interrupt calmWorld Dmsgsocks.noKey DmsgsocksClient.noKey).1.2.2
      rfl rfl rfl).1,
    ((stop_once_after_interrupt calmWorld Dmsgsocks.noKey DmsgsocksClient.noKey).2.2.2
      rfl rfl).2.1⟩

/-- C9: in both front-ends the transport client is created once, with an identity fixed
by the configured secret key: if its public key can be derived, that public key and the
configured secret key itself, which stays as it was; if it cannot (as for the unset,
zero key), both keys of the freshly generated pair. -/
theorem identity_from_secret_key (w : World) (gs : Dmsgsocks.Globals)
    (gc : DmsgsocksClient.Globals) :
    ((∀ pk, w.pubKeyOf gs.sk = .ok pk →
        identities (Dmsgsocks.Run w gs).trace = [(pk, gs.sk)] ∧
        (Dmsgsocks.Run w gs).globals.sk = gs.sk) ∧
      (∀ e, w.pubKeyOf gs.sk = .error e →
        identities (Dmsgsocks.Run w gs).trace = [w.generated] ∧
        (Dmsgsocks.Run w gs).globals.sk = w.generated.2)) ∧
    ((∀ pk, w.pubKeyOf gc.sk = .ok pk →
        identities (DmsgsocksClient.RunE w gc).trace = [(pk, gc.sk)] ∧
        (DmsgsocksClient.RunE w gc).globals.sk = gc.sk) ∧
      (∀ e, w.pubKeyOf gc.sk = .error e →
        identities (DmsgsocksClient.RunE w gc).trace = [w.generated] ∧
        (DmsgsocksClient.RunE w gc).globals.sk = w.generated.2)) := by
  refine ⟨⟨?_, ?_⟩, ⟨?_, ?_⟩⟩
  · intro pk h
    unfold Dmsgsocks.Run Dmsgsocks.deferred
    rw [h]
    rcases w.selected <;> rcases w.socks5 with _ | e1 <;>
      rcases w.clientClose with _ | e2 <;> rcases w.interrupted <;>
      simp [identities, List.filterMap_cons]
  · intro e h
    unfold Dmsgsocks.Run Dmsgsocks.deferred
    rw [h]
    rcases w.selected <;> rcases w.socks5 with _ | e1 <;>
      rcases w.clientClose with _ | e2 <;> rcases w.interrupted <;>
      simp [identities, List.filterMap_cons]
  · intro pk h
    have h2 : w.pubKeyOf (if gc.dmsggetLog = none then
        { gc with dmsggetLog := some "dmsgget" } else gc).sk = .ok pk := by
      split <;> exact h
    unfold DmsgsocksClient.RunE DmsgsocksClient.startDmsg DmsgsocksClient.stopFn
    simp only [h2]
    rcases w.selected <;> rcases w.interrupted <;>
      simp [DmsgsocksClient.stopFn, identities, List.filterMap_cons] <;> split <;> rfl
  · intro e h
    have h2 : w.pubKeyOf (if gc.dmsggetLog = none then
        { gc with dmsggetLog := some "dmsgget" } else gc).sk = .error e := by
      split <;> exact h
    unfold DmsgsocksClient.RunE DmsgsocksClient.startDmsg DmsgsocksClient.stopFn
    simp only [h2]
    rcases w.selected <;> rcases w.interrupted <;>
      simp [DmsgsocksClient.stopFn, identities, List.filterMap_cons]

/-- Witness for C9: with the key `[4, 2]` configured the client gets that key and its
public key; with no key configured it gets the generated pair. -/
theorem identity_from_secret_key_witness :
    identities (Dmsgsocks.Run calmWorld Dmsgsocks.withKey).trace =
        [(⟨[0, 4, 2]⟩, ⟨[4, 2]⟩)] ∧
    identities (DmsgsocksClient.RunE calmWorld DmsgsocksClient.noKey).trace =
        [(⟨[0, 9, 9]⟩, ⟨[9, 9]⟩)] :=
  ⟨((identity_from_secret_key calmWorld Dmsgsocks.withKey DmsgsocksClient.noKey).1.1
      ⟨[0, 4, 2]⟩ rfl).1,
    ((identity_from_secret_key calmWorld Dmsgsocks.withKey DmsgsocksClient.noKey).2.2
      "null secret key" rfl).1⟩

end Proxy

/-! ## Claims on the unquote wrapper -/

namespace Unquote

theorem intoBytesUnsafe_spec (nv : Native) (s : List Nat) (m : GoSlice) :
    (nativeResult nv s m.Ptr < 0 →
      (intoBytesUnsafe nv s m).err = ParsingError.ofInt (-(nativeResult nv s m.Ptr)) ∧
      (intoBytesUnsafe nv s m).m.Len = m.Len ∧ (intoBytesUnsafe nv s m).m.Cap = m.Cap) ∧
    (0 ≤ nativeResult nv s m.Ptr →
      (intoBytesUnsafe nv s m).err = 0 ∧
      (intoBytesUnsafe nv s m).m.Len = nativeResult nv s m.Ptr ∧
      (intoBytesUnsafe nv s m).m.Cap = m.Cap) := by
  unfold intoBytesUnsafe nativeResult
  constructor
  · intro h
    simp [h]
  · intro h
    simp [not_lt.mpr h]

/-- C10: `IntoBytes` on a buffer whose capacity is below the input length returns
`ERR_EOF`, makes no native call and leaves the buffer as it was; otherwise, and always in
`String`, a negative native result `r` gives the error `ParsingError(-r)` with the
buffer's length unchanged (`String` then returns the empty string), and a non-negative
`r` gives no error and length exactly `r`. -/
theorem unquote_result_mapping (nv : Native) (s : List Nat) (m : GoSlice) :
    (m.Cap < s.length → IntoBytes nv s m = ⟨nv.ERR_EOF, m, []⟩) ∧
    (¬ m.Cap < s.length →
      (nativeResult nv s m.Ptr < 0 →
        (IntoBytes nv s m).err = ParsingError.ofInt (-(nativeResult nv s m.Ptr)) ∧
        (IntoBytes nv s m).m.Len = m.Len) ∧
      (0 ≤ nativeResult nv s m.Ptr →
        (IntoBytes nv s m).err = 0 ∧
        (IntoBytes nv s m).m.Len = nativeResult nv s m.Ptr)) ∧
    ((nativeResult nv s (List.replicate s.length 0) < 0 →
        (String nv s).2.1 =
          ParsingError.ofInt (-(nativeResult nv s (List.replicate s.length 0))) ∧
        (String nv s).1.Len = 0) ∧
      (0 ≤ nativeResult nv s (List.replicate s.length 0) →
        (String nv s).2.1 = 0 ∧
        (String nv s).1.Len = nativeResult nv s (List.replicate s.length 0))) := by
  refine ⟨?_, ?_, ?_, ?_⟩
  · intro h
    simp [IntoBytes, h]
  · intro h
    have hs := intoBytesUnsafe_spec nv s m
    simp only [IntoBytes, h, if_false]
    exact ⟨fun hr => ⟨(hs.1 hr).1, (hs.1 hr).2.1⟩, fun hr => ⟨(hs.2 hr).1, (hs.2 hr).2.1⟩⟩
  · intro hr
    have hs := (intoBytesUnsafe_spec nv s ⟨List.replicate s.length 0, 0, s.length⟩).1 hr
    exact ⟨hs.1, hs.2.1⟩
  · intro hr
    have hs := (intoBytesUnsafe_spec nv s ⟨List.replicate s.length 0, 0, s.length⟩).2 hr
    exact ⟨hs.1, hs.2.1⟩

/-- Witness for C10: a two-byte input and a one-byte buffer give `ERR_EOF` with no
native call; an input starting with a backslash gives the error 3 and the empty string;
the input `[104, 105]` gives no error and a string of length 2. -/
theorem unquote_result_mapping_witness :
    IntoBytes toyNative [104, 105] ⟨[0], 0, 1⟩ = ⟨1, ⟨[0], 0, 1⟩, []⟩ ∧
    ((String toyNative [92]).2.1 = 3 ∧ (String toyNative [92]).1.Len = 0) ∧
    ((String toyNative [104, 105]).2.1 = 0 ∧ (String toyNative [104, 105]).1.Len = 2) :=
  ⟨(unquote_result_mapping toyNative [104, 105] ⟨[0], 0, 1⟩).1 (by decide),
    (((unquote_result_mapping toyNative [92] ⟨[], 0, 0⟩).2.2.1 (by decide)).imp_left
      (fun h => h.trans (by decide))),
    (unquote_result_mapping toyNative [104, 105] ⟨[], 0, 0⟩).2.2.2 (by decide)⟩

end Unquote
